import Mathlib

/-!
Shallow embedding of the passport validation service
(`src/passport_validation.py`) and of the ICAO 9303 check-digit
algorithm its MRZ stage relies on.

Images are pixel buffers with explicit dimensions.  The external
capability providers (the OCR/MRZ library, the face-detection cascade,
and the sharpness metric computed by the vision library) are modelled
as explicit function parameters gathered in a `Providers` record: the
pipeline's own decision logic is translated from the source, while the
providers are opaque inputs.  The temporary-file side effect of
`validate_mrz` is modelled by threading an explicit file-system state.
-/

namespace PassportValidation

/-- An in-memory decoded image: dimensions plus raw pixel data
(mirrors the `np.ndarray` handed to the pipeline after `cv2.imdecode`). -/
structure Image where
  height : Nat
  width : Nat
  pixels : List Nat
deriving DecidableEq

/-- A face bounding box as returned by `detectMultiScale`: `(x, y, w, h)`. -/
structure FaceBox where
  x : Nat
  y : Nat
  w : Nat
  h : Nat
deriving DecidableEq

/-- The MRZ object returned by the OCR library (`read_mrz`): the fields
`validate_mrz` reads from it.  `valid_score := none` models the object
lacking the `valid_score` attribute (the `hasattr` guard in the source). -/
structure MrzRaw where
  valid_score : Option Int
  country : String
  number : String
  date_of_birth : String
  expiration_date : String
  names : String
  surname : String
  sex : String
  nationality : String
  valid_number : Bool
  valid_date_of_birth : Bool
  valid_expiration_date : Bool
  valid_composite : Bool
deriving DecidableEq

/-- The external capability providers the pipeline delegates to,
each a pure function of the image it is given. -/
structure Providers where
  sharpness : Image → ℚ
  readMrz : Image → Option MrzRaw
  detectFaces : Image → List FaceBox

/-- The `validation_details` sub-dictionary built by `validate_mrz`. -/
structure ValidationDetails where
  valid_score : Int
  number_valid : Bool
  dob_valid : Bool
  expiry_valid : Bool
  composite_valid : Bool
deriving DecidableEq

/-- The MRZ data dictionary built by `validate_mrz` on success. -/
structure MrzData where
  country : String
  passport_number : String
  birth_date : String
  expiry_date : String
  name : String
  surname : String
  gender : String
  nationality : String
  validation_details : ValidationDetails
deriving DecidableEq

/-- The dictionary `validate_mrz` assembles from the MRZ object once the
score threshold is met (source lines 72-89). -/
def mkMrzData (m : MrzRaw) (s : Int) : MrzData :=
  { country := m.country
    passport_number := m.number
    birth_date := m.date_of_birth
    expiry_date := m.expiration_date
    name := m.names
    surname := m.surname
    gender := m.sex
    nationality := m.nationality
    validation_details :=
      { valid_score := s
        number_valid := m.valid_number
        dob_valid := m.valid_date_of_birth
        expiry_valid := m.valid_expiration_date
        composite_valid := m.valid_composite } }

/-- The terminal output of the endpoint: either a JSON failure response
(status code plus error string) or the success payload of source
lines 144-158. -/
inductive ValidationResult where
  | failure (status : Nat) (error : String)
  | success (country passport_number birth_date expiry_date name gender
      nationality image_quality layout_validation : String)
deriving DecidableEq

/-- A file system: an association list from paths to image contents.
Models the disk that `cv2.imwrite` writes to and `read_mrz` reads from. -/
abbrev FileSystem := List (String × Image)

/-- Write (or overwrite) the file at `path`. -/
def fsWrite (fs : FileSystem) (path : String) (img : Image) : FileSystem :=
  (path, img) :: fs.filter (fun e => e.1 ≠ path)

/-- Read the file at `path`, if present. -/
def fsRead (fs : FileSystem) (path : String) : Option Image :=
  (fs.find? (fun e => e.1 = path)).map Prod.snd

/-- The fixed temporary path used by `validate_mrz` (source line 60). -/
def temp_path : String := "temp_passport.jpg"

/-- The resolution-failure message of `check_image_quality` (source line 47). -/
def resolutionMsg : String := "Image resolution too low (min 1200x900 pixels required)"

/-- The blur-failure message of `check_image_quality` (source line 53);
it interpolates the numeric sharpness score. -/
def blurryMsg (s : ℚ) : String :=
  "Image is too blurry (sharpness score: " ++ toString s ++ ")"

/-- `check_image_quality` (source lines 41-55): resolution gate at
800 times 600, then sharpness gate at Laplacian variance 50. -/
def check_image_quality (P : Providers) (image : Image) : Bool × String :=
  if image.width < 800 ∨ image.height < 600 then
    (false, resolutionMsg)
  else if P.sharpness image < 50 then
    (false, blurryMsg (P.sharpness image))
  else
    (true, "Image quality OK")

/-- `validate_mrz` (source lines 57-89): saves the image to the fixed
temporary path, runs the OCR provider on the stored file, and gates on
`valid_score > 50`; on success returns the data dictionary. -/
def validate_mrz (P : Providers) (image : Image) (fs : FileSystem) :
    (Bool × Option MrzData) × FileSystem :=
  let fs2 := fsWrite fs temp_path image
  match fsRead fs2 temp_path with
  | none => ((false, none), fs2)
  | some stored =>
    match P.readMrz stored with
    | none => ((false, none), fs2)
    | some mrz =>
      match mrz.valid_score with
      | none => ((false, none), fs2)
      | some s =>
        if s ≤ 50 then ((false, none), fs2)
        else ((true, some (mkMrzData mrz s)), fs2)

/-- `check_passport_layout` (source lines 90-106): fail on zero face
boxes; otherwise inspect only the first box and fail when its horizontal
origin exceeds 40 percent of the image width. -/
def check_passport_layout (P : Providers) (image : Image) : Bool × String :=
  match P.detectFaces image with
  | [] => (false, "No face detected in passport photo")
  | f :: _ =>
    if (f.x : ℚ) > (image.width : ℚ) * (2 / 5) then
      (false, "Face position incorrect (should be on right side)")
    else
      (true, "Basic layout OK")

/-- `validate_passport` (source lines 108-161), after image decoding:
quality gate, then MRZ stage, then layout stage, each short-circuiting
into a 400 failure response.  The unreachable arm where the MRZ stage
reports success without data corresponds to the `TypeError` the source
would raise, caught by its broad handler as a 500. -/
def validate_passport (P : Providers) (image : Image) (fs : FileSystem) :
    ValidationResult × FileSystem :=
  let q := check_image_quality P image
  if q.1 = false then
    (.failure 400 q.2, fs)
  else
    let m := validate_mrz P image fs
    match m.1 with
    | (false, _) => (.failure 400 "MRZ not found or invalid", m.2)
    | (true, none) => (.failure 500 "Processing error", m.2)
    | (true, some d) =>
      let l := check_passport_layout P image
      if l.1 = false then
        (.failure 400 l.2, m.2)
      else
        (.success d.country d.passport_number d.birth_date d.expiry_date
          (d.surname ++ " " ++ d.name) d.gender d.nationality q.2 l.2, m.2)

/-- The stages of the pipeline, for instrumentation. -/
inductive Stage where
  | quality
  | mrz
  | layout
deriving DecidableEq

/-- `validate_passport` instrumented with the list of stages that ran,
in order; otherwise identical to `validate_passport`. -/
def validate_passport_trace (P : Providers) (image : Image) (fs : FileSystem) :
    ValidationResult × FileSystem × List Stage :=
  let q := check_image_quality P image
  if q.1 = false then
    (.failure 400 q.2, fs, [Stage.quality])
  else
    let m := validate_mrz P image fs
    match m.1 with
    | (false, _) =>
      (.failure 400 "MRZ not found or invalid", m.2, [Stage.quality, Stage.mrz])
    | (true, none) =>
      (.failure 500 "Processing error", m.2, [Stage.quality, Stage.mrz])
    | (true, some d) =>
      let l := check_passport_layout P image
      if l.1 = false then
        (.failure 400 l.2, m.2, [Stage.quality, Stage.mrz, Stage.layout])
      else
        (.success d.country d.passport_number d.birth_date d.expiry_date
          (d.surname ++ " " ++ d.name) d.gender d.nationality q.2 l.2, m.2,
          [Stage.quality, Stage.mrz, Stage.layout])

/-- Modelled from the spec: the ICAO 9303 character mapping used by the
check-digit algorithm, which the source delegates opaquely to the
`passporteye` library: digits map to themselves, letters `A`-`Z` map to
10-35, and the filler `<` maps to 0. -/
def charValue (c : Char) : Nat :=
  if '0' ≤ c ∧ c ≤ '9' then c.toNat - '0'.toNat
  else if 'A' ≤ c ∧ c ≤ 'Z' then c.toNat - 'A'.toNat + 10
  else 0

/-- Modelled from the spec: the cyclic position weights 7, 3, 1. -/
def mrzWeight (i : Nat) : Nat :=
  if i % 3 = 0 then 7 else if i % 3 = 1 then 3 else 1

/-- Modelled from the spec: the weighted sum of a field's character
values, the character at index `i` (offset by `k`) weighted by
`mrzWeight (k + i)`. -/
def mrzWeightedSum : List Char → Nat → Nat
  | [], _ => 0
  | c :: cs, k => charValue c * mrzWeight k + mrzWeightedSum cs (k + 1)

/-- Modelled from the spec: the check digit of a field,
`sum(value_i * weight_i) mod 10`. -/
def checkDigit (field : List Char) : Nat :=
  mrzWeightedSum field 0 % 10

/-- Modelled from the spec: the checksum validator, comparing the
computed check digit with the stored one. -/
def mrzCheckDigitValid (field : List Char) (stored : Nat) : Bool :=
  checkDigit field == stored

/-! ### Concrete fixtures used by witnesses and counterexamples -/

/-- A 400 times 300 image (below the resolution thresholds). -/
def imgSmall : Image := { height := 300, width := 400, pixels := [] }

/-- A 1200 times 900 image (above the resolution thresholds). -/
def imgOK : Image := { height := 900, width := 1200, pixels := [] }

/-- An 800 times 600 image (exactly at the enforced thresholds). -/
def imgMin : Image := { height := 600, width := 800, pixels := [] }

/-- A face box near the left edge. -/
def faceLeft : FaceBox := { x := 10, y := 0, w := 50, h := 50 }

/-- A face box past 40 percent of a 1200-pixel width. -/
def faceRight : FaceBox := { x := 600, y := 0, w := 50, h := 50 }

/-- An MRZ object with score 51 and some individual checks failed. -/
def mrzGood : MrzRaw :=
  { valid_score := some 51
    country := "UTO"
    number := "L898902C3"
    date_of_birth := "740812"
    expiration_date := "120415"
    names := "ANNA MARIA"
    surname := "ERIKSSON"
    sex := "F"
    nationality := "UTO"
    valid_number := true
    valid_date_of_birth := false
    valid_expiration_date := true
    valid_composite := false }

/-- An MRZ object with score 30 (low confidence). -/
def mrzLow : MrzRaw := { mrzGood with valid_score := some 30 }

/-- An MRZ object with score exactly 50. -/
def mrzFifty : MrzRaw := { mrzGood with valid_score := some 50 }

/-- Providers: sharp image, MRZ with score 51, face on the left. -/
def provGood : Providers :=
  { sharpness := fun _ => 100
    readMrz := fun _ => some mrzGood
    detectFaces := fun _ => [faceLeft] }

/-- Providers whose OCR returns a low-confidence MRZ. -/
def provLow : Providers := { provGood with readMrz := fun _ => some mrzLow }

/-- Providers whose OCR returns a score of exactly 50. -/
def provFifty : Providers := { provGood with readMrz := fun _ => some mrzFifty }

/-- Providers whose OCR finds no MRZ. -/
def provNone : Providers := { provGood with readMrz := fun _ => none }

/-- Providers reporting a sharpness of 10 (blurry). -/
def provBlur : Providers := { provGood with sharpness := fun _ => 10 }

/-- Providers whose face detector puts the first box on the right. -/
def provFaceRight : Providers :=
  { provGood with detectFaces := fun _ => [faceRight] }

/-- Providers whose face detector finds no face. -/
def provNoFace : Providers := { provGood with detectFaces := fun _ => [] }

/-! ### Helper lemmas -/

/-- Reading back the path just written returns the written image. -/
lemma fsRead_fsWrite (fs : FileSystem) (p : String) (img : Image) :
    fsRead (fsWrite fs p img) p = some img := by
  simp [fsRead, fsWrite]

/-- The result component of the MRZ stage, as a function of the OCR
provider's answer on the image itself (the temporary file round-trips). -/
lemma validate_mrz_fst (P : Providers) (img : Image) (fs : FileSystem) :
    (validate_mrz P img fs).1 =
      match P.readMrz img with
      | none => (false, none)
      | some mrz =>
        match mrz.valid_score with
        | none => (false, none)
        | some s =>
          if s ≤ 50 then (false, none) else (true, some (mkMrzData mrz s)) := by
  unfold validate_mrz
  simp only [fsRead_fsWrite]
  cases P.readMrz img with
  | none => rfl
  | some mrz =>
    dsimp only
    cases mrz.valid_score with
    | none => rfl
    | some s => by_cases h : s ≤ 50 <;> simp [h]

/-- The MRZ stage always leaves the file system with the image written
at the fixed temporary path. -/
lemma validate_mrz_snd (P : Providers) (img : Image) (fs : FileSystem) :
    (validate_mrz P img fs).2 = fsWrite fs temp_path img := by
  unfold validate_mrz
  simp only [fsRead_fsWrite]
  cases P.readMrz img with
  | none => rfl
  | some mrz =>
    dsimp only
    cases mrz.valid_score with
    | none => rfl
    | some s =>
      by_cases h : s ≤ 50 <;> simp [h]

/-- The MRZ stage never reports success without data. -/
lemma validate_mrz_ok_some (P : Providers) (img : Image) (fs : FileSystem) :
    (validate_mrz P img fs).1.1 = true →
      ∃ d, (validate_mrz P img fs).1.2 = some d := by
  rw [validate_mrz_fst]
  cases P.readMrz img with
  | none => intro h; simp at h
  | some mrz =>
    dsimp only
    cases mrz.valid_score with
    | none => intro h; simp at h
    | some s =>
      by_cases h50 : s ≤ 50
      · simp [h50]
      · simp [h50]

/-! ### Claim theorems -/

/-- Claim C4: the quality gate fails with the resolution reason whenever
width < 800 or height < 600, regardless of sharpness; at or above that
resolution it fails with the blurry message carrying the numeric
sharpness score if and only if the Laplacian-variance sharpness is below
50, and otherwise passes with "Image quality OK". -/
theorem quality_gate_spec (P : Providers) (img : Image) :
    (img.width < 800 ∨ img.height < 600 →
      check_image_quality P img = (false, resolutionMsg))
    ∧ (800 ≤ img.width → 600 ≤ img.height →
        (check_image_quality P img = (false, blurryMsg (P.sharpness img))
          ↔ P.sharpness img < 50))
    ∧ (800 ≤ img.width → 600 ≤ img.height → ¬ P.sharpness img < 50 →
        check_image_quality P img = (true, "Image quality OK")) := by
  unfold check_image_quality
  refine ⟨fun h => by simp [h], fun hw hh => ?_, fun hw hh hs => ?_⟩
  · have hres : ¬ (img.width < 800 ∨ img.height < 600) := by omega
    by_cases hs : P.sharpness img < 50 <;> simp [hres, hs]
  · have hres : ¬ (img.width < 800 ∨ img.height < 600) := by omega
    simp [hres, hs]

/-- Witness for C4 at concrete inputs: a 400 times 300 image fails with
the resolution reason, and a sharp-enough-resolution image with
sharpness 10 fails with the blurry message. -/
theorem quality_gate_spec_witness :
    check_image_quality provGood imgSmall = (false, resolutionMsg) ∧
    check_image_quality provBlur imgOK =
      (false, blurryMsg (provBlur.sharpness imgOK)) := by
  refine ⟨(quality_gate_spec provGood imgSmall).1 (Or.inl (by decide)), ?_⟩
  exact ((quality_gate_spec provBlur imgOK).2.1 (by decide) (by decide)).mpr
    (by decide)

/-- Claim C10: the resolution failure message names a 1200 times 900
minimum, but the enforced thresholds are 800 and 600: any image with
width at least 800 and height at least 600 passes the resolution check
and proceeds to the sharpness check. -/
theorem resolution_msg_mismatch (P : Providers) (img : Image) :
    resolutionMsg = "Image resolution too low (min 1200x900 pixels required)"
    ∧ (img.width < 800 ∨ img.height < 600 →
        check_image_quality P img = (false, resolutionMsg))
    ∧ (800 ≤ img.width → 600 ≤ img.height →
        check_image_quality P img =
          (if P.sharpness img < 50 then (false, blurryMsg (P.sharpness img))
           else (true, "Image quality OK"))) := by
  refine ⟨rfl, fun h => by simp [check_image_quality, h], fun hw hh => ?_⟩
  have hres : ¬ (img.width < 800 ∨ img.height < 600) := by omega
  by_cases hs : P.sharpness img < 50 <;> simp [check_image_quality, hres, hs]

/-- Witness for C10: an image at exactly 800 times 600 — far below the
1200 times 900 named in the message — passes the quality gate outright
when sharp. -/
theorem resolution_msg_mismatch_witness :
    check_image_quality provGood imgMin = (true, "Image quality OK") := by
  have h := (resolution_msg_mismatch provGood imgMin).2.2 (by decide) (by decide)
  rw [h, if_neg (by decide)]

/-- Claim C5: the layout verifier fails with the no-face message when
the detector returns zero boxes; otherwise it inspects only the first
box, failing with the position message if and only if that box's
horizontal origin exceeds 40 percent of the image width, and passing
with "Basic layout OK" otherwise. -/
theorem layout_spec (P : Providers) (img : Image) :
    (P.detectFaces img = [] →
      check_passport_layout P img = (false, "No face detected in passport photo"))
    ∧ (∀ f rest, P.detectFaces img = f :: rest →
        ((check_passport_layout P img =
            (false, "Face position incorrect (should be on right side)")
           ↔ (f.x : ℚ) > (img.width : ℚ) * (2 / 5))
         ∧ (¬ (f.x : ℚ) > (img.width : ℚ) * (2 / 5) →
             check_passport_layout P img = (true, "Basic layout OK")))) := by
  unfold check_passport_layout
  refine ⟨fun h => by rw [h], fun f rest h => ?_⟩
  rw [h]
  refine ⟨?_, fun hx => by simp [hx]⟩
  by_cases hx : (f.x : ℚ) > (img.width : ℚ) * (2 / 5) <;> simp [hx]

/-- Witness for C5 at concrete inputs: a first box at x = 600 on a
1200-wide image fails with the position message; a first box at x = 10
passes. -/
theorem layout_spec_witness :
    check_passport_layout provFaceRight imgOK =
      (false, "Face position incorrect (should be on right side)") ∧
    check_passport_layout provGood imgOK = (true, "Basic layout OK") := by
  constructor
  · exact (((layout_spec provFaceRight imgOK).2 faceRight [] rfl).1).mpr
      (by norm_num [faceRight, imgOK])
  · exact (((layout_spec provGood imgOK).2 faceLeft [] rfl).2)
      (by norm_num [faceLeft, imgOK])

/-- Claim C3: the MRZ stage passes if and only if the aggregate validity
score is strictly greater than 50, and whenever it passes the parsed
record — per-field validity flags included — is returned, with no
condition on the individual flags. -/
theorem mrz_stage_threshold (P : Providers) (img : Image) (fs : FileSystem) :
    ((validate_mrz P img fs).1.1 = true ↔
      ∃ m s, P.readMrz img = some m ∧ m.valid_score = some s ∧ 50 < s)
    ∧ (∀ m s, P.readMrz img = some m → m.valid_score = some s → 50 < s →
        (validate_mrz P img fs).1 = (true, some (mkMrzData m s))) := by
  rw [validate_mrz_fst]
  constructor
  · cases hm : P.readMrz img with
    | none => simp
    | some mrz =>
      dsimp only
      cases hs : mrz.valid_score with
      | none => simp [hs]
      | some s =>
        dsimp only
        by_cases h50 : s ≤ 50
        · rw [if_pos h50]
          constructor
          · intro h; exact absurd h (by simp)
          · rintro ⟨m, s2, hm2, hs2, hlt⟩
            obtain rfl : mrz = m := Option.some.inj hm2
            rw [hs] at hs2
            obtain rfl : s = s2 := Option.some.inj hs2
            omega
        · rw [if_neg h50]
          simp only [true_iff]
          exact ⟨mrz, s, rfl, hs, by omega⟩
  · intro m s hm hs h50
    rw [hm]
    dsimp only
    rw [hs]
    dsimp only
    rw [if_neg (by omega)]

/-- Witness for C3 at concrete inputs: with a score of 51 and some
individual flags false the stage passes and returns the full record;
with a score of exactly 50 it fails. -/
theorem mrz_stage_threshold_witness :
    (validate_mrz provGood imgOK []).1 = (true, some (mkMrzData mrzGood 51)) ∧
    (validate_mrz provFifty imgOK []).1.1 = false := by
  constructor
  · exact (mrz_stage_threshold provGood imgOK []).2 mrzGood 51 rfl rfl
      (by decide)
  · cases hb : (validate_mrz provFifty imgOK []).1.1 with
    | false => rfl
    | true =>
      obtain ⟨m, s, hm, hs, hlt⟩ :=
        ((mrz_stage_threshold provFifty imgOK []).1).mp hb
      obtain rfl : mrzFifty = m := Option.some.inj hm
      obtain rfl : (50 : Int) = s := Option.some.inj hs
      omega

/-- Claim C7: whenever all three stages pass, the success result carries
exactly the MRZ record's country, passport number, birth date, expiry
date, sex and nationality, the display name surname-space-names, and the
quality and layout stage messages. -/
theorem success_payload (P : Providers) (img : Image) (fs : FileSystem)
    (m : MrzRaw) (s : Int)
    (hq : (check_image_quality P img).1 = true)
    (hm : P.readMrz img = some m) (hs : m.valid_score = some s)
    (h50 : 50 < s)
    (hl : (check_passport_layout P img).1 = true) :
    (validate_passport P img fs).1 =
      ValidationResult.success m.country m.number m.date_of_birth
        m.expiration_date (m.surname ++ " " ++ m.names) m.sex m.nationality
        (check_image_quality P img).2 (check_passport_layout P img).2 := by
  have hmrz : (validate_mrz P img fs).1 = (true, some (mkMrzData m s)) := by
    rw [validate_mrz_fst, hm]
    dsimp only
    rw [hs]
    dsimp only
    rw [if_neg (by omega)]
  unfold validate_passport
  dsimp only
  rw [if_neg (by simp [hq]), hmrz]
  dsimp only
  rw [if_neg (by simp [hl])]
  rfl

/-- Witness for C7: with concrete providers where every stage passes,
the success payload is assembled from the MRZ record and the stage
messages. -/
theorem success_payload_witness :
    (validate_passport provGood imgOK []).1 =
      ValidationResult.success mrzGood.country mrzGood.number
        mrzGood.date_of_birth mrzGood.expiration_date
        (mrzGood.surname ++ " " ++ mrzGood.names) mrzGood.sex
        mrzGood.nationality (check_image_quality provGood imgOK).2
        (check_passport_layout provGood imgOK).2 :=
  success_payload provGood imgOK [] mrzGood 51 (by decide) rfl rfl
    (by decide)
    (by norm_num [check_passport_layout, provGood, faceLeft, imgOK])

/-- Claim C6 (amended): a low-confidence MRZ (validity score at most 50)
is surfaced through the same failure as the MRZ-not-found case — status
400 with the error string "MRZ not found or invalid" — and the MRZ stage
returns no record, so no per-check validity breakdown accompanies the
failure. -/
theorem mrz_failure_conflated (P : Providers) (img : Image) (fs : FileSystem)
    (hq : (check_image_quality P img).1 = true)
    (hmrz : P.readMrz img = none ∨
      ∃ m s, P.readMrz img = some m ∧ m.valid_score = some s ∧ s ≤ 50) :
    (validate_passport P img fs).1 =
      ValidationResult.failure 400 "MRZ not found or invalid" ∧
    (validate_mrz P img fs).1.2 = none := by
  have hfst : (validate_mrz P img fs).1 = (false, none) := by
    rw [validate_mrz_fst]
    rcases hmrz with h | ⟨m, s, hm, hs, h50⟩
    · rw [h]
    · rw [hm]
      dsimp only
      rw [hs]
      dsimp only
      rw [if_pos h50]
  refine ⟨?_, by rw [hfst]⟩
  unfold validate_passport
  dsimp only
  rw [if_neg (by simp [hq]), hfst]

/-- Witness for C6 (amended) at a concrete input: an MRZ with score 30
yields the generic 400 failure and no record. -/
theorem mrz_failure_conflated_witness :
    (validate_passport provLow imgOK []).1 =
      ValidationResult.failure 400 "MRZ not found or invalid" ∧
    (validate_mrz provLow imgOK []).1.2 = none :=
  mrz_failure_conflated provLow imgOK [] (by decide)
    (Or.inr ⟨mrzLow, 30, rfl, rfl, by decide⟩)

/-- Counterexample to C6 as stated: at concrete inputs, the
low-confidence failure (score 30) is byte-for-byte identical to the
not-found failure, and the MRZ stage returns no validity breakdown, so
the two categories are not distinct and no diagnosis data is carried. -/
theorem mrz_failure_not_distinct_cex :
    (validate_passport provLow imgOK []).1 =
      ValidationResult.failure 400 "MRZ not found or invalid" ∧
    (validate_passport provNone imgOK []).1 =
      (validate_passport provLow imgOK []).1 ∧
    (validate_mrz provLow imgOK []).1.2 = none := by
  refine ⟨rfl, rfl, rfl⟩

/-- Claim C1: the orchestrator runs the stages in the fixed order
quality, MRZ, layout; every run's stage trace is one of the three
prefixes of that order (so no stage is retried and no stage runs after
a failure), and each stage's failure is returned immediately with that
stage's reason. -/
theorem orchestrator_short_circuit (P : Providers) (img : Image)
    (fs : FileSystem) :
    ((validate_passport_trace P img fs).2.2 = [Stage.quality] ∨
     (validate_passport_trace P img fs).2.2 = [Stage.quality, Stage.mrz] ∨
     (validate_passport_trace P img fs).2.2 =
       [Stage.quality, Stage.mrz, Stage.layout])
    ∧ ((check_image_quality P img).1 = false →
        (validate_passport_trace P img fs).1 =
          ValidationResult.failure 400 (check_image_quality P img).2 ∧
        (validate_passport_trace P img fs).2.2 = [Stage.quality])
    ∧ ((check_image_quality P img).1 = true →
        (validate_mrz P img fs).1.1 = false →
        (validate_passport_trace P img fs).1 =
          ValidationResult.failure 400 "MRZ not found or invalid" ∧
        (validate_passport_trace P img fs).2.2 = [Stage.quality, Stage.mrz])
    ∧ ((check_image_quality P img).1 = true →
        (validate_mrz P img fs).1.1 = true →
        (check_passport_layout P img).1 = false →
        (validate_passport_trace P img fs).1 =
          ValidationResult.failure 400 (check_passport_layout P img).2 ∧
        (validate_passport_trace P img fs).2.2 =
          [Stage.quality, Stage.mrz, Stage.layout]) := by
  refine ⟨?_, ?_, ?_, ?_⟩
  · unfold validate_passport_trace
    dsimp only
    by_cases hq : (check_image_quality P img).1 = false
    · rw [if_pos hq]
      exact Or.inl rfl
    · rw [if_neg hq]
      rcases hm : (validate_mrz P img fs).1 with ⟨b, d⟩
      cases b with
      | false => exact Or.inr (Or.inl rfl)
      | true =>
        cases d with
        | none => exact Or.inr (Or.inl rfl)
        | some dd =>
          dsimp only
          by_cases hl : (check_passport_layout P img).1 = false
          · rw [if_pos hl]
            exact Or.inr (Or.inr rfl)
          · rw [if_neg hl]
            exact Or.inr (Or.inr rfl)
  · intro hq
    unfold validate_passport_trace
    dsimp only
    rw [if_pos hq]
    exact ⟨rfl, rfl⟩
  · intro hq hm
    unfold validate_passport_trace
    dsimp only
    rw [if_neg (by simp [hq])]
    rcases hmm : (validate_mrz P img fs).1 with ⟨b, d⟩
    rw [hmm] at hm
    dsimp only at hm
    subst hm
    exact ⟨rfl, rfl⟩
  · intro hq hm hl
    unfold validate_passport_trace
    dsimp only
    rw [if_neg (by simp [hq])]
    obtain ⟨dd, hdd⟩ := validate_mrz_ok_some P img fs hm
    rcases hmm : (validate_mrz P img fs).1 with ⟨b, d⟩
    rw [hmm] at hm hdd
    dsimp only at hm hdd
    subst hm
    subst hdd
    dsimp only
    rw [if_pos hl]
    exact ⟨rfl, rfl⟩

/-- Witness for C1 at a concrete input: with a blurry image the pipeline
fails at the quality stage with that stage's message and only the
quality stage runs. -/
theorem orchestrator_short_circuit_witness :
    (validate_passport_trace provBlur imgOK []).1 =
      ValidationResult.failure 400 (check_image_quality provBlur imgOK).2 ∧
    (validate_passport_trace provBlur imgOK []).2.2 = [Stage.quality] :=
  (orchestrator_short_circuit provBlur imgOK []).2.1 (by decide)

/-- Claim C8: with the providers pure functions of their input, the
result of `validate_passport` on an image does not depend on the prior
file-system state; in particular calling it twice on identical pixel
data — the second call starting from the state the first call left —
yields the identical result. -/
theorem validate_deterministic (P : Providers) (img : Image)
    (fsA fsB : FileSystem) :
    (validate_passport P img fsA).1 = (validate_passport P img fsB).1 ∧
    (validate_passport P img (validate_passport P img fsA).2).1 =
      (validate_passport P img fsA).1 := by
  have key : ∀ g h : FileSystem,
      (validate_passport P img g).1 = (validate_passport P img h).1 := by
    intro g h
    unfold validate_passport
    dsimp only
    by_cases hq : (check_image_quality P img).1 = false
    · rw [if_pos hq, if_pos hq]
    · rw [if_neg hq, if_neg hq]
      have hsame : (validate_mrz P img g).1 = (validate_mrz P img h).1 := by
        rw [validate_mrz_fst, validate_mrz_fst]
      rcases hg : (validate_mrz P img g).1 with ⟨b, d⟩
      rw [hg] at hsame
      rw [← hsame]
      cases b with
      | false => rfl
      | true =>
        cases d with
        | none => rfl
        | some dd =>
          dsimp only
          by_cases hl : (check_passport_layout P img).1 = false
          · rw [if_pos hl, if_pos hl]
          · rw [if_neg hl, if_neg hl]
  exact ⟨key fsA fsB, key _ fsA⟩

/-- Claim C9 (amended): the only state a validation call mutates is the
fixed temporary file `temp_passport.jpg`: the call either leaves the
file system unchanged (quality failure) or leaves it with the image
written at that one shared path — a file that survives after the call
completes. -/
theorem validate_frame (P : Providers) (img : Image) (fs : FileSystem) :
    (validate_passport P img fs).2 = fs ∨
    (validate_passport P img fs).2 = fsWrite fs temp_path img := by
  unfold validate_passport
  dsimp only
  by_cases hq : (check_image_quality P img).1 = false
  · rw [if_pos hq]
    exact Or.inl rfl
  · rw [if_neg hq]
    have hsnd := validate_mrz_snd P img fs
    rcases hm : (validate_mrz P img fs).1 with ⟨b, d⟩
    cases b with
    | false => exact Or.inr hsnd
    | true =>
      cases d with
      | none => exact Or.inr hsnd
      | some dd =>
        dsimp only
        by_cases hl : (check_passport_layout P img).1 = false
        · rw [if_pos hl]
          exact Or.inr hsnd
        · rw [if_neg hl]
          exact Or.inr hsnd

/-- Counterexample to C9 as stated: at a concrete input the pipeline
writes the image to `temp_passport.jpg` and that file is still present
in the file-system state after the call completes, so state written by
the pipeline does survive the invocation. -/
theorem temp_file_persists_cex :
    fsRead (validate_passport provGood imgOK []).2 temp_path = some imgOK ∧
    (validate_passport provGood imgOK []).2 ≠ ([] : FileSystem) := by
  have h2 : (validate_passport provGood imgOK []).2 =
      fsWrite [] temp_path imgOK := by
    have hfst : (validate_mrz provGood imgOK []).1 =
        (true, some (mkMrzData mrzGood 51)) := by
      rw [validate_mrz_fst]
      rfl
    unfold validate_passport
    dsimp only
    rw [if_neg (by decide), hfst]
    dsimp only
    rw [if_neg (by norm_num [check_passport_layout, provGood, faceLeft, imgOK])]
    exact validate_mrz_snd provGood imgOK []
  rw [h2]
  exact ⟨fsRead_fsWrite [] temp_path imgOK, by simp [fsWrite]⟩

/-- Each weight is one of 7, 3, 1. -/
lemma mrzWeight_cases (i : Nat) :
    mrzWeight i = 7 ∨ mrzWeight i = 3 ∨ mrzWeight i = 1 := by
  unfold mrzWeight
  by_cases h0 : i % 3 = 0
  · exact Or.inl (if_pos h0)
  · by_cases h1 : i % 3 = 1
    · rw [if_neg h0, if_pos h1]
      exact Or.inr (Or.inl rfl)
    · rw [if_neg h0, if_neg h1]
      exact Or.inr (Or.inr rfl)

/-- The weights 7, 3, 1 are invertible mod 10: a product with a weight
vanishes only if the other factor does. -/
lemma mrzWeight_cancel (i : Nat) (x : ZMod 10)
    (h : (mrzWeight i : ZMod 10) * x = 0) : x = 0 := by
  have h7 : ∀ y : ZMod 10, ((7 : ℕ) : ZMod 10) * y = 0 → y = 0 := by decide
  have h3 : ∀ y : ZMod 10, ((3 : ℕ) : ZMod 10) * y = 0 → y = 0 := by decide
  have h1 : ∀ y : ZMod 10, ((1 : ℕ) : ZMod 10) * y = 0 → y = 0 := by decide
  rcases mrzWeight_cases i with hw | hw | hw <;> rw [hw] at h
  · exact h7 x h
  · exact h3 x h
  · exact h1 x h

/-- Setting position `i` of a field shifts the weighted sum, in
`ZMod 10`, by the weighted difference of the character values. -/
lemma mrzWeightedSum_set (c : Char) :
    ∀ (f : List Char) (i k : Nat) (h : i < f.length),
    ((mrzWeightedSum (f.set i c) k : ℕ) : ZMod 10) =
      ((mrzWeightedSum f k : ℕ) : ZMod 10) +
        ((charValue c : ZMod 10) - ((charValue (f.get ⟨i, h⟩) : ℕ) : ZMod 10)) *
          ((mrzWeight (k + i) : ℕ) : ZMod 10) := by
  intro f
  induction f with
  | nil =>
    intro i k h
    simp at h
  | cons a as ih =>
    intro i k h
    cases i with
    | zero =>
      simp only [List.set, mrzWeightedSum, Nat.add_zero]
      rw [show (a :: as).get ⟨0, h⟩ = a from rfl]
      push_cast
      ring
    | succ j =>
      have hj : j < as.length := by simpa using h
      simp only [List.set, mrzWeightedSum]
      rw [show (a :: as).get ⟨j + 1, h⟩ = as.get ⟨j, hj⟩ from rfl]
      push_cast
      rw [ih j (k + 1) hj]
      have harith : k + 1 + j = k + (j + 1) := by omega
      rw [harith]
      ring

/-- Claim C2 (amended): a field whose stored check digit matches the
weighted sum mod 10 validates; replacing any single character with one
whose mapped value differs mod 10 makes the validator return false. -/
theorem checksum_flip (field : List Char) (stored : Nat) (i : Nat)
    (h : i < field.length) (c : Char)
    (hst : stored = checkDigit field)
    (hv : charValue c % 10 ≠ charValue (field.get ⟨i, h⟩) % 10) :
    mrzCheckDigitValid field stored = true ∧
    mrzCheckDigitValid (field.set i c) stored = false := by
  constructor
  · simp [mrzCheckDigitValid, hst]
  · simp only [mrzCheckDigitValid, hst, beq_eq_false_iff_ne, ne_eq]
    intro heq
    have hz : ((mrzWeightedSum (field.set i c) 0 : ℕ) : ZMod 10) =
        ((mrzWeightedSum field 0 : ℕ) : ZMod 10) := by
      have hc := congrArg (fun n : ℕ => (n : ZMod 10)) heq
      simpa only [checkDigit, ZMod.natCast_mod] using hc
    rw [mrzWeightedSum_set c field i 0 h] at hz
    have hzero : ((charValue c : ZMod 10) -
        ((charValue (field.get ⟨i, h⟩) : ℕ) : ZMod 10)) *
          ((mrzWeight (0 + i) : ℕ) : ZMod 10) = 0 := by
      exact add_right_eq_self.mp hz
    have hdiff : ((charValue c : ℕ) : ZMod 10) =
        ((charValue (field.get ⟨i, h⟩) : ℕ) : ZMod 10) := by
      have := mrzWeight_cancel (0 + i) _ (by rw [mul_comm]; exact hzero)
      exact sub_eq_zero.mp this
    exact hv ((ZMod.natCast_eq_natCast_iff' _ _ _).mp hdiff)

/-- Witness for C2 (amended) at a concrete input: the field "1" has
check digit 7; flipping its character to '2' (mapped value 2, differing
from 1 mod 10) makes the validator return false. -/
theorem checksum_flip_witness :
    mrzCheckDigitValid ((['1'] : List Char)) 7 = true ∧
    mrzCheckDigitValid ((['1'] : List Char).set 0 '2') 7 = false :=
  checksum_flip ['1'] 7 0 (by decide) '2' (by decide) (by decide)

/-- Counterexample to C2 as stated: the field "0" with stored check
digit 0 validates, and replacing its single character '0' with the
different character '<' — both map to value 0 — still validates, so a
single-character replacement does not always make the validator return
false. -/
theorem checksum_flip_cex :
    mrzCheckDigitValid ((['0'] : List Char)) 0 = true ∧
    ((['0'] : List Char).set 0 '<') ≠ (['0'] : List Char) ∧
    mrzCheckDigitValid ((['0'] : List Char).set 0 '<') 0 = true := by
  refine ⟨by decide, by decide, by decide⟩

end PassportValidation
